import Mathlib

/-!
Shallow embedding of `src/core/rendering.js` (p5.js canvas/renderer
lifecycle): `createCanvas`, `resizeCanvas`, `noCanvas`, `createGraphics`,
`blendMode`, together with the DOM and heap state they act on.

JS objects are modelled by an explicit heap (`renderers : List (Nat × Renderer)`
keyed by allocation id), the document by the ordered list of attached elements,
and the module-level mutable `defaultId` variable by a field of the sketch
state.  Thrown JS exceptions are modelled by `JsError` results; operations that
may throw after mutating return the state as it was at the throw site.
-/

set_option maxHeartbeats 1000000

namespace P5

/-- A JS runtime value, as discriminated by the `typeof val !== 'object' &&
typeof val !== 'function'` test in `resizeCanvas`. -/
inductive JsVal where
  | num (n : Int)
  | str (s : String)
  | boolv (b : Bool)
  | undef
  | obj (id : Nat)
  | fn (id : Nat)
deriving DecidableEq, Repr

/-- `typeof val !== 'object' && typeof val !== 'function'` (note `typeof
undefined` is `'undefined'`, hence scalar). -/
def JsVal.isScalar : JsVal → Bool
  | .obj _ => false
  | .fn _ => false
  | _ => true

/-- One property of a backend drawing context: its key, current value, and
whether the backend protects it against assignment (assignment throws and is
swallowed by the `try`/`catch` in `resizeCanvas`). -/
structure CtxProp where
  key : String
  val : JsVal
  readOnly : Bool
deriving DecidableEq, Repr

/-- The two renderer backends: `constants.P2D` (Rasterized2D) and
`constants.WEBGL` (Accelerated3D). -/
inductive Backend where
  | rasterized2D
  | accelerated3D
deriving DecidableEq, Repr

/-- Compositing-mode tokens.  `other` covers every value that is none of the
named constants. -/
inductive Mode where
  | BLEND | DARKEST | LIGHTEST | DIFFERENCE | MULTIPLY | EXCLUSION | SCREEN
  | REPLACE | OVERLAY | HARD_LIGHT | SOFT_LIGHT | DODGE | BURN | ADD
  | NORMAL
  | other (s : String)
deriving DecidableEq, Repr

/-- Modelled from the spec: `constants.js` is outside this fragment; each token
is represented by a distinct string (its spec name), which is what gets
concatenated into the `blendMode` error message. -/
def Mode.token : Mode → String
  | .BLEND => "BLEND"
  | .DARKEST => "DARKEST"
  | .LIGHTEST => "LIGHTEST"
  | .DIFFERENCE => "DIFFERENCE"
  | .MULTIPLY => "MULTIPLY"
  | .EXCLUSION => "EXCLUSION"
  | .SCREEN => "SCREEN"
  | .REPLACE => "REPLACE"
  | .OVERLAY => "OVERLAY"
  | .HARD_LIGHT => "HARD_LIGHT"
  | .SOFT_LIGHT => "SOFT_LIGHT"
  | .DODGE => "DODGE"
  | .BURN => "BURN"
  | .ADD => "ADD"
  | .NORMAL => "NORMAL"
  | .other s => s

/-- Observable calls made on renderers / the host, recorded in order. -/
inductive Event where
  | resizeEv (rid : Nat) (w h : Int)
  | applyDefaultsEv (rid : Nat)
  | blendEv (rid : Nat) (m : Mode)
  | warnEv (msg : String)
  | redrawEv
deriving DecidableEq, Repr

/-- A thrown JS exception. -/
inductive JsError where
  | typeError (msg : String)
  | jsError (msg : String)
deriving DecidableEq, Repr

/-- A renderer object (`p5.Renderer2D` or `p5.RendererGL`).  `isDefault` is the
third constructor argument (`isMainCanvas`) of both constructors in
`createCanvas`, `eid` identifies the owning canvas element, `ctx` is the
backend drawing-context state, `blend` the active compositing mode. -/
structure Renderer where
  backend : Backend
  isDefault : Bool
  eid : Nat
  width : Int
  height : Int
  ctx : List CtxProp
  blend : Mode
deriving DecidableEq, Repr

/-- The document: the ordered list of attached elements `(eid, id-attribute)`
(detached elements survive only through references held elsewhere), plus an
allocation counter for element identities. -/
structure Dom where
  attached : List (Nat × String)
  nextEid : Nat
deriving DecidableEq, Repr

/-- `document.getElementById`: first attached element (document order) whose id
attribute matches; detached elements are never found. -/
def Dom.getElementById (d : Dom) (nm : String) : Option Nat :=
  (d.attached.find? (fun p => p.2 == nm)).map (fun p => p.1)

/-- Whether some attached element carries the id attribute `nm`. -/
def Dom.hasId (d : Dom) (nm : String) : Bool :=
  d.attached.any (fun p => p.2 == nm)

/-- `document.createElement('canvas')`: a fresh element, not yet attached. -/
def Dom.createElement (d : Dom) : Nat × Dom :=
  (d.nextEid, { d with nextEid := d.nextEid + 1 })

/-- `parentNode.removeChild(el)`: detach `eid` from the tree. -/
def Dom.removeChild (d : Dom) (eid : Nat) : Dom :=
  { d with attached := d.attached.filter (fun p => !(p.1 == eid)) }

/-- Whether `eid` currently has a parent in the tree. -/
def Dom.isAttached (d : Dom) (eid : Nat) : Bool :=
  d.attached.any (fun p => p.1 == eid)

/-- `appendChild`: attach at the end; an already-attached element is moved. -/
def Dom.appendChild (d : Dom) (c : Nat × String) : Dom :=
  { d with attached := d.attached.filter (fun p => !(p.1 == c.1)) ++ [c] }

/-- The p5 sketch instance state used by `rendering.js`: the renderer heap, the
`_renderer` reference, the `_elements` registry, the `_defaultGraphicsCreated`
flag, the `canvas` reference (eid and id attribute), `_setupDone`, the public
`width`/`height`, the document, the module-level `defaultId` variable, and the
trace of observable calls. -/
structure Sketch where
  renderers : List (Nat × Renderer)
  nextRid : Nat
  rendererRef : Option Nat
  elements : List Nat
  defaultGraphicsCreated : Bool
  canvasRef : Option (Nat × String)
  setupDone : Bool
  width : Int
  height : Int
  dom : Dom
  defaultId : String
  trace : List Event
deriving DecidableEq, Repr

/-- Dereference a renderer id in the heap. -/
def Sketch.getRenderer (s : Sketch) (rid : Nat) : Option Renderer :=
  (s.renderers.find? (fun p => p.1 == rid)).map (fun p => p.2)

/-- Mutate the heap object with id `rid` in place. -/
def updateHeap (hp : List (Nat × Renderer)) (rid : Nat) (f : Renderer → Renderer) :
    List (Nat × Renderer) :=
  hp.map (fun p => if p.1 == rid then (p.1, f p.2) else p)

/-- Mutate the renderer `rid` in the sketch's heap. -/
def Sketch.updateRenderer (s : Sketch) (rid : Nat) (f : Renderer → Renderer) : Sketch :=
  { s with renderers := updateHeap s.renderers rid f }

/-- Allocate a new renderer object on the heap, returning its id. -/
def Sketch.addRenderer (s : Sketch) (r : Renderer) : Nat × Sketch :=
  (s.nextRid, { s with renderers := (s.nextRid, r) :: s.renderers, nextRid := s.nextRid + 1 })

/-- The value a context property holds right after a destructive backend
resize (some backend-defined default; its precise content is irrelevant to
the restore guarantee). -/
def resetVal (k : String) : JsVal := JsVal.str ("reset:" ++ k)

/-- Modelled from the spec: `Renderer.resize` (defined in `p5.Renderer`, not in
this fragment) sets the renderer's dimensions; resizing a backend context is
destructive and resets every context property to a backend default, keeping
the property set and its protection flags. -/
def Renderer.resize (r : Renderer) (w h : Int) : Renderer :=
  { r with width := w, height := h,
           ctx := r.ctx.map (fun p => { p with val := resetVal p.key }) }

/-- Assigning `v` to context property `k`: a backend-protected property throws
(the caller catches and skips), others take the value. -/
def setCtxProp (c : List CtxProp) (k : String) (v : JsVal) : List CtxProp :=
  c.map (fun p => if p.key == k && !p.readOnly then { p with val := v } else p)

/-- The `resizeCanvas` restore loop: re-apply each saved property in order,
skipping backend-protected ones. -/
def restoreProps (c : List CtxProp) : List (String × JsVal) → List CtxProp
  | [] => c
  | (k, v) :: rest => restoreProps (setCtxProp c k v) rest

/-- The `resizeCanvas` snapshot loop: every property whose value is neither an
object nor a function, with its current value. -/
def snapshotScalars (c : List CtxProp) : List (String × JsVal) :=
  (c.filter (fun p => p.val.isScalar)).map (fun p => (p.key, p.val))

/-- Read a context property's current value. -/
def lookupVal (c : List CtxProp) (k : String) : Option JsVal :=
  (c.find? (fun p => p.key == k)).map (fun p => p.val)

/-- `this._renderer.resize(w, h)` on renderer `rid`, recording the call. -/
def Sketch.rendererResize (s : Sketch) (rid : Nat) (w h : Int) : Sketch :=
  let s1 := s.updateRenderer rid (fun r => r.resize w h)
  { s1 with trace := s1.trace ++ [Event.resizeEv rid w h] }

/-- Modelled from the spec: `Renderer._applyDefaults` (outside this fragment)
applies default drawing state; recorded as an observable call. -/
def Sketch.rendererApplyDefaults (s : Sketch) (rid : Nat) : Sketch :=
  { s with trace := s.trace ++ [Event.applyDefaultsEv rid] }

/-- Modelled from the spec: `Renderer.blendMode` (outside this fragment)
persists the forwarded mode as the renderer's active compositing mode. -/
def Sketch.rendererBlend (s : Sketch) (rid : Nat) (m : Mode) : Sketch :=
  let s1 := s.updateRenderer rid (fun r => { r with blend := m })
  { s1 with trace := s1.trace ++ [Event.blendEv rid m] }

/-- `'defaultCanvas' + i`. -/
def defaultSlot (i : Nat) : String := "defaultCanvas" ++ Nat.repr i

/-- The `while (document.getElementById('defaultCanvas' + i)) i++;` loop,
with fuel (the JS loop terminates because the document is finite). -/
def scanFree (d : Dom) : Nat → Nat → Nat
  | 0, i => i
  | Nat.succ fuel, i => if d.hasId (defaultSlot i) then scanFree d fuel (i + 1) else i

/-- Index chosen by the id scan: enough fuel to pass every attached element. -/
def firstFreeIdx (d : Dom) : Nat := scanFree d (d.attached.length + 1) 0

/-- Modelled from the spec: the fresh drawing-context contents of a new
renderer are backend-defined and opaque to this fragment. -/
def freshCtx (_ : Backend) : List CtxProp := []

/-- A renderer as constructed in `createCanvas`: both constructor calls pass
`isMainCanvas = true`.  Dimensions are set by the subsequent `resize`. -/
def newRenderer (b : Backend) (eid : Nat) : Renderer :=
  { backend := b, isDefault := true, eid := eid, width := 0, height := 0,
    ctx := freshCtx b, blend := Mode.BLEND }

/-- First phase of `createCanvas`: the backend branch that tears down an
existing default surface (Accelerated3D) or picks/reuses the canvas element
(Rasterized2D).  Returns the element `c` (eid, id attribute), not yet
attached. -/
def ccMakeElem (r : Backend) (s : Sketch) : Except JsError ((Nat × String) × Sketch) :=
  match r with
  | .accelerated3D =>
      let s1 :=
        match s.dom.getElementById s.defaultId with
        | some eid0 =>
            let d1 := s.dom.removeChild eid0
            let els :=
              match s.rendererRef with
              | some rid0 => s.elements.filter (fun e => !(e == rid0))
              | none => s.elements
            { s with dom := d1, elements := els }
        | none => s
      let (eid, d2) := s1.dom.createElement
      Except.ok ((eid, s1.defaultId), { s1 with dom := d2 })
  | .rasterized2D =>
      if s.defaultGraphicsCreated then
        match s.canvasRef with
        | some c => Except.ok (c, s)
        | none => Except.error (JsError.typeError "Cannot read properties of undefined")
      else
        let (eid, d2) := s.dom.createElement
        let nm := defaultSlot (firstFreeIdx s.dom)
        Except.ok ((eid, nm), { s with dom := d2, defaultId := nm })

/-- Second phase of `createCanvas`: attach `c`, construct/register the
renderer for the requested backend, then `resize(w, h)` and
`_applyDefaults()`, returning `this._renderer`. -/
def ccFinish (w h : Int) (r : Backend) (c : Nat × String) (s : Sketch) :
    Except JsError (Nat × Sketch) :=
  let s1 := { s with dom := s.dom.appendChild c }
  let s2 :=
    match r with
    | .accelerated3D =>
        let (rid, sa) := s1.addRenderer (newRenderer .accelerated3D c.1)
        { sa with rendererRef := some rid, elements := sa.elements ++ [rid],
                  canvasRef := some c }
    | .rasterized2D =>
        if s1.defaultGraphicsCreated then s1
        else
          let (rid, sa) := s1.addRenderer (newRenderer .rasterized2D c.1)
          { sa with rendererRef := some rid, elements := sa.elements ++ [rid],
                    defaultGraphicsCreated := true, canvasRef := some c }
  match s2.rendererRef with
  | none => Except.error (JsError.typeError "Cannot read properties of undefined")
  | some rid => Except.ok (rid, (s2.rendererResize rid w h).rendererApplyDefaults rid)

/-- `p5.prototype.createCanvas(w, h, renderer)`; the optional backend defaults
to `P2D`. -/
def createCanvas (w h : Int) (ropt : Option Backend) (s : Sketch) :
    Except JsError (Nat × Sketch) :=
  let r := ropt.getD Backend.rasterized2D
  match ccMakeElem r s with
  | Except.error e => Except.error e
  | Except.ok (c, s1) => ccFinish w h r c s1

/-- `p5.prototype.resizeCanvas(w, h, noRedraw)`: silently returns when no
renderer exists; otherwise snapshots every scalar drawing-context property,
resizes, updates public width/height, restores the snapshot (skipping
backend-protected properties), and redraws unless asked not to. -/
def resizeCanvas (w h : Int) (noRedraw : Bool) (s : Sketch) : Sketch :=
  match s.rendererRef with
  | none => s
  | some rid =>
      match s.getRenderer rid with
      | none => s
      | some r =>
          let props := snapshotScalars r.ctx
          let s1 := s.rendererResize rid w h
          let s2 := { s1 with width := w, height := h }
          let s3 := s2.updateRenderer rid
            (fun r2 => { r2 with ctx := restoreProps r2.ctx props })
          if noRedraw then s3 else { s3 with trace := s3.trace ++ [Event.redrawEv] }

/-- `p5.prototype.noCanvas()`: `if (this.canvas)
this.canvas.parentNode.removeChild(this.canvas);` — the reference is never
cleared, and a detached element's `parentNode` is `null`. -/
def noCanvas (s : Sketch) : Option JsError × Sketch :=
  match s.canvasRef with
  | none => (none, s)
  | some c =>
      if s.dom.isAttached c.1 then
        (none, { s with dom := s.dom.removeChild c.1 })
      else
        (some (JsError.typeError "Cannot read properties of null (reading removeChild)"), s)

/-- Modelled from the spec: `p5.Graphics` (outside this fragment) always
allocates a brand-new, non-default, offscreen Renderer+SurfaceHandle pair
independent of any existing default canvas and never reuses or replaces
existing state. -/
def createGraphics (w h : Int) (ropt : Option Backend) (s : Sketch) : Renderer × Sketch :=
  let b := ropt.getD Backend.rasterized2D
  ({ backend := b, isDefault := false, eid := s.dom.nextEid, width := w, height := h,
     ctx := freshCtx b, blend := Mode.BLEND }, s)

/-- The 14-way disjunction guarding `blendMode`, in source order. -/
def isValid14 (m : Mode) : Bool :=
  m == Mode.BLEND || m == Mode.DARKEST || m == Mode.LIGHTEST || m == Mode.DIFFERENCE ||
  m == Mode.MULTIPLY || m == Mode.EXCLUSION || m == Mode.SCREEN || m == Mode.REPLACE ||
  m == Mode.OVERLAY || m == Mode.HARD_LIGHT || m == Mode.SOFT_LIGHT || m == Mode.DODGE ||
  m == Mode.BURN || m == Mode.ADD

/-- The deprecation warning emitted for `NORMAL`. -/
def normalWarning : String :=
  "NORMAL has been deprecated for use in blendMode. defaulting to BLEND instead."

/-- `p5.prototype.blendMode(mode)`: a recognized token is forwarded to
`this._renderer` (dereferenced without any existence guard); `NORMAL` warns and
forwards `BLEND`; anything else throws before touching the renderer. -/
def blendMode (m : Mode) (s : Sketch) : Option JsError × Sketch :=
  if isValid14 m then
    match s.rendererRef with
    | none => (some (JsError.typeError "Cannot read properties of undefined"), s)
    | some rid => (none, s.rendererBlend rid m)
  else if m == Mode.NORMAL then
    let s1 := { s with trace := s.trace ++ [Event.warnEv normalWarning] }
    match s1.rendererRef with
    | none => (some (JsError.typeError "Cannot read properties of undefined"), s1)
    | some rid => (none, s1.rendererBlend rid Mode.BLEND)
  else
    (some (JsError.jsError ("Mode " ++ m.token ++ " not recognized.")), s)

/-- An empty document. -/
def freshDom : Dom := { attached := [], nextEid := 0 }

/-- A freshly constructed sketch, before any canvas exists. -/
def freshSketch : Sketch :=
  { renderers := [], nextRid := 0, rendererRef := none, elements := [],
    defaultGraphicsCreated := false, canvasRef := none, setupDone := false,
    width := 100, height := 100, dom := freshDom, defaultId := "defaultCanvas0",
    trace := [] }

/-- Renderers in the registry flagged as default (for the at-most-one-default
invariant). -/
def defaultCount (s : Sketch) : Nat :=
  ((s.elements.filterMap (fun rid => s.getRenderer rid)).filter
    (fun r => r.isDefault)).length

/-- The sketch state after `createCanvas(100, 100)` on a fresh sketch; used as
a concrete input in several witnesses. -/
def afterP2D : Sketch :=
  match createCanvas 100 100 none freshSketch with
  | Except.ok q => q.2
  | Except.error _ => freshSketch

/-- The default renderer object living at heap id 0 in `afterP2D`. -/
def afterP2DRenderer : Renderer :=
  { backend := Backend.rasterized2D, isDefault := true, eid := 0,
    width := 100, height := 100, ctx := [], blend := Mode.BLEND }

/-! ## Heap lemmas -/

theorem find?_updateHeap_self (hp : List (Nat × Renderer)) (rid : Nat)
    (f : Renderer → Renderer) :
    ((updateHeap hp rid f).find? (fun p => p.1 == rid)).map (fun p => p.2)
      = ((hp.find? (fun p => p.1 == rid)).map (fun p => p.2)).map f := by
  induction hp with
  | nil => rfl
  | cons a t ih =>
      obtain ⟨k, r⟩ := a
      by_cases h : k = rid
      · subst h
        simp [updateHeap]
      · simp only [updateHeap, List.map_cons] at ih ⊢
        rw [if_neg (by simpa using h)]
        rw [List.find?_cons_of_neg _ (by simpa using h),
            List.find?_cons_of_neg _ (by simpa using h)]
        exact ih

theorem getRenderer_updateRenderer_self (s : Sketch) (rid : Nat)
    (f : Renderer → Renderer) :
    (s.updateRenderer rid f).getRenderer rid = (s.getRenderer rid).map f := by
  simpa [Sketch.getRenderer, Sketch.updateRenderer] using
    find?_updateHeap_self s.renderers rid f

theorem updateRenderer_proj (s : Sketch) (rid : Nat) (f : Renderer → Renderer) :
    (s.updateRenderer rid f).rendererRef = s.rendererRef ∧
    (s.updateRenderer rid f).elements = s.elements ∧
    (s.updateRenderer rid f).trace = s.trace := by
  simp [Sketch.updateRenderer]

@[simp] theorem getRenderer_setTrace (s : Sketch) (t : List Event) (rid : Nat) :
    Sketch.getRenderer { s with trace := t } rid = s.getRenderer rid := rfl

@[simp] theorem getRenderer_mk (hp : List (Nat × Renderer)) (nrid : Nat) (ref : Option Nat)
    (els : List Nat) (dgc : Bool) (cref : Option (Nat × String)) (sd : Bool)
    (w h : Int) (d : Dom) (did : String) (tr : List Event) (rid : Nat) :
    Sketch.getRenderer (Sketch.mk hp nrid ref els dgc cref sd w h d did tr) rid
      = (hp.find? (fun p => p.1 == rid)).map (fun p => p.2) := rfl

theorem rendererBlend_getRenderer_self (s : Sketch) (rid : Nat) (m : Mode) :
    (s.rendererBlend rid m).getRenderer rid =
      (s.getRenderer rid).map (fun r => { r with blend := m }) := by
  simp only [Sketch.rendererBlend, getRenderer_setTrace]
  exact getRenderer_updateRenderer_self s rid _

theorem rendererBlend_trace (s : Sketch) (rid : Nat) (m : Mode) :
    (s.rendererBlend rid m).trace = s.trace ++ [Event.blendEv rid m] := by
  simp [Sketch.rendererBlend, Sketch.updateRenderer]

theorem rendererResize_getRenderer_self (s : Sketch) (rid : Nat) (w h : Int) :
    (s.rendererResize rid w h).getRenderer rid =
      (s.getRenderer rid).map (fun r => r.resize w h) := by
  simp only [Sketch.rendererResize, getRenderer_setTrace]
  exact getRenderer_updateRenderer_self s rid _

theorem rendererResize_trace (s : Sketch) (rid : Nat) (w h : Int) :
    (s.rendererResize rid w h).trace = s.trace ++ [Event.resizeEv rid w h] := by
  simp [Sketch.rendererResize, Sketch.updateRenderer]

/-! ## C5, C6, C10: blendMode -/

/-- C5: for every input mode that is not one of the 14 valid compositing
tokens and not the legacy alias NORMAL, `blendMode(mode)` fails with an error
whose message identifies the offending value, and the sketch state — in
particular the active renderer's compositing state — is exactly what it was
before the call (the error is raised before any forwarding to the
renderer). -/
theorem blendMode_invalid_rejected (m : Mode) (s : Sketch)
    (hv : isValid14 m = false) (hn : m ≠ Mode.NORMAL) :
    blendMode m s =
      (some (JsError.jsError ("Mode " ++ m.token ++ " not recognized.")), s) := by
  have hb : (m == Mode.NORMAL) = false := by simpa using hn
  simp [blendMode, hv, hb]

/-- Witness for C5 at the concrete invalid mode `'bogus'`. -/
theorem blendMode_invalid_rejected_witness :
    isValid14 (Mode.other "bogus") = false ∧ Mode.other "bogus" ≠ Mode.NORMAL ∧
    blendMode (Mode.other "bogus") freshSketch =
      (some (JsError.jsError ("Mode " ++ (Mode.other "bogus").token ++ " not recognized.")),
        freshSketch) :=
  ⟨by decide, by decide,
    blendMode_invalid_rejected (Mode.other "bogus") freshSketch (by decide) (by decide)⟩

/-- C6: each of the 14 valid tokens succeeds and is forwarded verbatim to the
active renderer (which then reports it as its active mode); `NORMAL` also
succeeds, emits the deprecation warning, and forwards `BLEND` instead. -/
theorem blendMode_valid_forwards (m : Mode) (s : Sketch) (rid : Nat) (r : Renderer)
    (hv : isValid14 m = true) (hr : s.rendererRef = some rid)
    (hg : s.getRenderer rid = some r) :
    ((blendMode m s).1 = none ∧
     (blendMode m s).2.getRenderer rid = some { r with blend := m } ∧
     (blendMode m s).2.trace = s.trace ++ [Event.blendEv rid m]) ∧
    ((blendMode Mode.NORMAL s).1 = none ∧
     (blendMode Mode.NORMAL s).2.getRenderer rid = some { r with blend := Mode.BLEND } ∧
     (blendMode Mode.NORMAL s).2.trace =
       s.trace ++ [Event.warnEv normalWarning, Event.blendEv rid Mode.BLEND]) := by
  have hnv : isValid14 Mode.NORMAL = false := by decide
  constructor
  · refine ⟨by simp [blendMode, hv, hr], ?_, ?_⟩
    · simp [blendMode, hv, hr, rendererBlend_getRenderer_self, hg]
    · simp [blendMode, hv, hr, rendererBlend_trace]
  · refine ⟨by simp [blendMode, hnv, hr], ?_, ?_⟩
    · simp only [blendMode, hnv, Bool.false_eq_true, if_false, if_pos rfl, hr]
      have hg' : (s.renderers.find? (fun p => p.1 == rid)).map (fun p => p.2) = some r := hg
      simp [rendererBlend_getRenderer_self, hg']
    · simp only [blendMode, hnv, Bool.false_eq_true, if_false, if_pos rfl, hr]
      simp [rendererBlend_trace]

/-- Witness for C6 at `MULTIPLY` on the state after `createCanvas(100,100)`. -/
theorem blendMode_valid_forwards_witness :
    isValid14 Mode.MULTIPLY = true ∧ afterP2D.rendererRef = some 0 ∧
    afterP2D.getRenderer 0 = some afterP2DRenderer ∧
    (((blendMode Mode.MULTIPLY afterP2D).1 = none ∧
      (blendMode Mode.MULTIPLY afterP2D).2.getRenderer 0 =
        some { afterP2DRenderer with blend := Mode.MULTIPLY } ∧
      (blendMode Mode.MULTIPLY afterP2D).2.trace =
        afterP2D.trace ++ [Event.blendEv 0 Mode.MULTIPLY]) ∧
     ((blendMode Mode.NORMAL afterP2D).1 = none ∧
      (blendMode Mode.NORMAL afterP2D).2.getRenderer 0 =
        some { afterP2DRenderer with blend := Mode.BLEND } ∧
      (blendMode Mode.NORMAL afterP2D).2.trace =
        afterP2D.trace ++ [Event.warnEv normalWarning, Event.blendEv 0 Mode.BLEND])) :=
  ⟨rfl, rfl, rfl,
    blendMode_valid_forwards Mode.MULTIPLY afterP2D 0 afterP2DRenderer rfl rfl rfl⟩

/-- C10: dispatching a valid mode (or NORMAL) with no renderer is not a silent
no-op — `this._renderer` is dereferenced without an existence guard, so the
call fails with a runtime error — whereas `resizeCanvas` and `noCanvas` guard
for the missing renderer/canvas and silently return the state unchanged. -/
theorem blendMode_missing_renderer_throws (m : Mode) (s : Sketch) (w h : Int) (nr : Bool)
    (hm : isValid14 m = true ∨ m = Mode.NORMAL)
    (hr : s.rendererRef = none) (hc : s.canvasRef = none) :
    (blendMode m s).1.isSome = true ∧
    resizeCanvas w h nr s = s ∧
    noCanvas s = (none, s) := by
  refine ⟨?_, by simp [resizeCanvas, hr], by simp [noCanvas, hc]⟩
  rcases hm with hm | hm
  · simp [blendMode, hm, hr]
  · subst hm
    simp [blendMode, hr, isValid14]

/-- Witness for C10 at `BLEND` on a fresh sketch. -/
theorem blendMode_missing_renderer_throws_witness :
    (isValid14 Mode.BLEND = true ∨ Mode.BLEND = Mode.NORMAL) ∧
    freshSketch.rendererRef = none ∧ freshSketch.canvasRef = none ∧
    ((blendMode Mode.BLEND freshSketch).1.isSome = true ∧
     resizeCanvas 5 7 false freshSketch = freshSketch ∧
     noCanvas freshSketch = (none, freshSketch)) :=
  ⟨Or.inl rfl, rfl, rfl,
    blendMode_missing_renderer_throws Mode.BLEND freshSketch 5 7 false (Or.inl rfl) rfl rfl⟩

/-! ## C9: createGraphics -/

/-- C9: `createGraphics(w, h, backend)` returns a brand-new non-default
renderer distinct from the current default renderer, and leaves the whole
sketch state — the default renderer's dimensions, its registry entry, and the
registry's contents — unchanged. -/
theorem createGraphics_isolated (w h : Int) (b : Option Backend) (s : Sketch)
    (rid : Nat) (r : Renderer) (hr : s.rendererRef = some rid)
    (hg : s.getRenderer rid = some r) (hd : r.isDefault = true) :
    (createGraphics w h b s).1.isDefault = false ∧
    (createGraphics w h b s).1 ≠ r ∧
    (createGraphics w h b s).1.width = w ∧
    (createGraphics w h b s).1.height = h ∧
    (createGraphics w h b s).2 = s ∧
    (createGraphics w h b s).2.getRenderer rid = some r ∧
    (createGraphics w h b s).2.elements = s.elements := by
  refine ⟨rfl, ?_, rfl, rfl, rfl, hg, rfl⟩
  intro hcon
  rw [← hcon] at hd
  simp [createGraphics] at hd

/-- Witness for C9 on the state after `createCanvas(100,100)`. -/
theorem createGraphics_isolated_witness :
    afterP2D.rendererRef = some 0 ∧
    afterP2D.getRenderer 0 = some afterP2DRenderer ∧
    afterP2DRenderer.isDefault = true ∧
    ((createGraphics 50 50 none afterP2D).1.isDefault = false ∧
     (createGraphics 50 50 none afterP2D).1 ≠ afterP2DRenderer ∧
     (createGraphics 50 50 none afterP2D).1.width = 50 ∧
     (createGraphics 50 50 none afterP2D).1.height = 50 ∧
     (createGraphics 50 50 none afterP2D).2 = afterP2D ∧
     (createGraphics 50 50 none afterP2D).2.getRenderer 0 = some afterP2DRenderer ∧
     (createGraphics 50 50 none afterP2D).2.elements = afterP2D.elements) :=
  ⟨rfl, rfl, rfl,
    createGraphics_isolated 50 50 none afterP2D 0 afterP2DRenderer rfl rfl rfl⟩

/-! ## C3: noCanvas -/

theorem isAttached_removeChild (d : Dom) (e : Nat) :
    (d.removeChild e).isAttached e = false := by
  simp [Dom.removeChild, Dom.isAttached, List.any_eq_true, List.mem_filter]

/-- C3 counterexample: after `createCanvas(100,100)`, the first `noCanvas()`
succeeds and detaches the surface, but the second call raises a TypeError
(`this.canvas` is still set and its `parentNode` is `null`) — the claim says
the second call raises no error. -/
theorem noCanvas_twice_cex :
    (noCanvas afterP2D).1 = none ∧
    (noCanvas (noCanvas afterP2D).2).1 =
      some (JsError.typeError "Cannot read properties of null (reading removeChild)") :=
  ⟨rfl, rfl⟩

/-- C3 (amended): `noCanvas()` with an attached default surface detaches it;
but the canvas reference is not cleared, so a second call immediately after
dereferences the detached element's absent parent and raises a runtime error
(with no further effect on the state) rather than being a silent no-op. -/
theorem noCanvas_detach_then_throw (s : Sketch) (e : Nat) (nm : String)
    (hc : s.canvasRef = some (e, nm)) (ha : s.dom.isAttached e = true) :
    (noCanvas s).1 = none ∧
    (noCanvas s).2.dom.isAttached e = false ∧
    (noCanvas s).2.canvasRef = some (e, nm) ∧
    (noCanvas (noCanvas s).2).1.isSome = true ∧
    (noCanvas (noCanvas s).2).2 = (noCanvas s).2 := by
  have hdet : (s.dom.removeChild e).isAttached e = false := isAttached_removeChild s.dom e
  simp [noCanvas, hc, ha, hdet]

/-- Witness for C3's amended theorem on the state after `createCanvas(100,100)`. -/
theorem noCanvas_detach_then_throw_witness :
    afterP2D.canvasRef = some (0, "defaultCanvas0") ∧
    afterP2D.dom.isAttached 0 = true ∧
    ((noCanvas afterP2D).1 = none ∧
     (noCanvas afterP2D).2.dom.isAttached 0 = false ∧
     (noCanvas afterP2D).2.canvasRef = some (0, "defaultCanvas0") ∧
     (noCanvas (noCanvas afterP2D).2).1.isSome = true ∧
     (noCanvas (noCanvas afterP2D).2).2 = (noCanvas afterP2D).2) :=
  ⟨rfl, rfl, noCanvas_detach_then_throw afterP2D 0 "defaultCanvas0" rfl rfl⟩

/-! ## C2: default-renderer uniqueness / backend-switch teardown -/

/-- The sketch state after `createCanvas(100,100,WEBGL)` on a fresh sketch. -/
def afterGL : Sketch :=
  match createCanvas 100 100 (some Backend.accelerated3D) freshSketch with
  | Except.ok q => q.2
  | Except.error _ => freshSketch

/-- The state after the Accelerated3D-then-Rasterized2D backend switch:
`createCanvas(100,100,WEBGL)` then `createCanvas(50,50)`. -/
def afterGLThenP2D : Sketch :=
  match createCanvas 50 50 none afterGL with
  | Except.ok q => q.2
  | Except.error _ => freshSketch

/-- C2 counterexample: in the Accelerated3D-then-Rasterized2D direction the
old default renderer (heap id 0) is NOT destroyed and NOT removed from the
registry — after the switch the registry holds both renderers and two of them
are flagged default, refuting both conjuncts of the claim. -/
theorem createCanvas_switch_keeps_old_renderer_cex :
    afterGL.rendererRef = some 0 ∧
    afterGLThenP2D.elements = [0, 1] ∧
    (afterGLThenP2D.getRenderer 0).map (fun r => (r.isDefault, r.backend))
      = some (true, Backend.accelerated3D) ∧
    afterGLThenP2D.rendererRef = some 1 ∧
    defaultCount afterGLThenP2D = 2 :=
  ⟨rfl, rfl, rfl, rfl, rfl⟩

/-- C2 (amended): only the Rasterized2D-to-Accelerated3D direction tears the
old default down: a `createCanvas` call requesting Accelerated3D while a
default renderer exists (and its surface carries the reserved default id)
removes the previous default renderer from the registry and registers exactly
the new one, so at most one registry renderer is flagged default afterwards;
in the opposite direction (Accelerated3D default followed by a Rasterized2D
call) the old renderer stays registered and two renderers are flagged
default. -/
theorem createCanvas_gl_replaces_default (w h : Int) (s : Sketch) (rid0 e0 : Nat)
    (hr : s.rendererRef = some rid0)
    (he : s.dom.getElementById s.defaultId = some e0)
    (hel : s.elements = [rid0])
    (hlt : rid0 < s.nextRid) :
    (createCanvas w h (some Backend.accelerated3D) s).map
        (fun q => (q.1, q.2.elements,
                   (q.2.getRenderer q.1).map (fun r => r.isDefault),
                   defaultCount q.2))
      = Except.ok (s.nextRid, [s.nextRid], some true, 1) ∧
    rid0 ∉ [s.nextRid] := by
  constructor
  · simp [createCanvas, ccMakeElem, ccFinish, he, hr, hel, Dom.createElement,
      Dom.appendChild, Sketch.addRenderer, Sketch.rendererResize,
      Sketch.rendererApplyDefaults, Sketch.updateRenderer, updateHeap,
      Sketch.getRenderer, defaultCount, newRenderer, Renderer.resize, freshCtx,
      Except.map, List.find?_cons_of_pos]
  · simp [Nat.ne_of_lt hlt]

/-- Witness for C2's amended theorem: switching to Accelerated3D on the state
after `createCanvas(100,100)`. -/
theorem createCanvas_gl_replaces_default_witness :
    afterP2D.rendererRef = some 0 ∧
    afterP2D.dom.getElementById afterP2D.defaultId = some 0 ∧
    afterP2D.elements = [0] ∧
    0 < afterP2D.nextRid ∧
    ((createCanvas 60 40 (some Backend.accelerated3D) afterP2D).map
        (fun q => (q.1, q.2.elements,
                   (q.2.getRenderer q.1).map (fun r => r.isDefault),
                   defaultCount q.2))
      = Except.ok (afterP2D.nextRid, [afterP2D.nextRid], some true, 1) ∧
     0 ∉ [afterP2D.nextRid]) :=
  ⟨rfl, rfl, rfl, Nat.zero_lt_one,
    createCanvas_gl_replaces_default 60 40 afterP2D 0 0 rfl rfl rfl Nat.zero_lt_one⟩

/-! ## C7: createCanvas → resize; applyDefaults; dims -/

/-- C7: whenever `createCanvas(w, h, backend)` returns (for either backend and
for `backend` omitted), the renderer it returns is `this._renderer`, the last
two observable renderer calls of the call are `resize(w, h)` followed by
`_applyDefaults()` on exactly that renderer, and that renderer reports
`width = w` and `height = h`. -/
theorem createCanvas_resize_defaults_dims (w h : Int) (b : Option Backend)
    (s s' : Sketch) (rid : Nat)
    (hwf : ∀ rid0, s.rendererRef = some rid0 → (s.getRenderer rid0).isSome = true)
    (hok : createCanvas w h b s = Except.ok (rid, s')) :
    s'.rendererRef = some rid ∧
    (s'.getRenderer rid).map (fun r => (r.width, r.height)) = some (w, h) ∧
    s'.trace = s.trace ++ [Event.resizeEv rid w h, Event.applyDefaultsEv rid] := by
  cases hR : b.getD Backend.rasterized2D with
  | accelerated3D =>
      cases he : s.dom.getElementById s.defaultId with
      | none =>
          simp only [createCanvas, hR, ccMakeElem, he, ccFinish] at hok
          simp only [Except.ok.injEq, Prod.mk.injEq] at hok
          obtain ⟨rfl, rfl⟩ := hok
          refine ⟨rfl, ?_, ?_⟩
          · simp [Sketch.rendererApplyDefaults, Sketch.rendererResize,
              Sketch.updateRenderer, updateHeap, Sketch.addRenderer,
              Sketch.getRenderer, newRenderer, Renderer.resize, freshCtx]
          · simp [Sketch.rendererApplyDefaults, Sketch.rendererResize,
              Sketch.updateRenderer, Sketch.addRenderer]
      | some e0 =>
          cases hrr : s.rendererRef with
          | none =>
              simp only [createCanvas, hR, ccMakeElem, he, hrr, ccFinish] at hok
              simp only [Except.ok.injEq, Prod.mk.injEq] at hok
              obtain ⟨rfl, rfl⟩ := hok
              refine ⟨rfl, ?_, ?_⟩
              · simp [Sketch.rendererApplyDefaults, Sketch.rendererResize,
                  Sketch.updateRenderer, updateHeap, Sketch.addRenderer,
                  Sketch.getRenderer, newRenderer, Renderer.resize, freshCtx]
              · simp [Sketch.rendererApplyDefaults, Sketch.rendererResize,
                  Sketch.updateRenderer, Sketch.addRenderer]
          | some rid0 =>
              simp only [createCanvas, hR, ccMakeElem, he, hrr, ccFinish] at hok
              simp only [Except.ok.injEq, Prod.mk.injEq] at hok
              obtain ⟨rfl, rfl⟩ := hok
              refine ⟨rfl, ?_, ?_⟩
              · simp [Sketch.rendererApplyDefaults, Sketch.rendererResize,
                  Sketch.updateRenderer, updateHeap, Sketch.addRenderer,
                  Sketch.getRenderer, newRenderer, Renderer.resize, freshCtx]
              · simp [Sketch.rendererApplyDefaults, Sketch.rendererResize,
                  Sketch.updateRenderer, Sketch.addRenderer]
  | rasterized2D =>
      by_cases hdg : s.defaultGraphicsCreated = true
      · cases hcv : s.canvasRef with
        | none => simp [createCanvas, hR, ccMakeElem, hdg, hcv] at hok
        | some c =>
            cases hrr : s.rendererRef with
            | none =>
                simp [createCanvas, hR, ccMakeElem, ccFinish, hdg, hcv, hrr] at hok
            | some rid0 =>
                have hs0 := hwf rid0 hrr
                rcases hgg : s.getRenderer rid0 with _ | r0
                · rw [hgg] at hs0; simp at hs0
                · simp [createCanvas, hR, ccMakeElem, hdg, hcv, ccFinish, hrr] at hok
                  obtain ⟨rfl, rfl⟩ := hok
                  have hg' : (s.renderers.find? (fun p => p.1 == rid0)).map
                      (fun p => p.2) = some r0 := hgg
                  refine ⟨?_, ?_, ?_⟩
                  · simp [Sketch.rendererApplyDefaults, Sketch.rendererResize,
                      Sketch.updateRenderer, hrr]
                  · simp [Sketch.rendererApplyDefaults, Sketch.rendererResize,
                      Sketch.updateRenderer, Sketch.getRenderer,
                      find?_updateHeap_self, hg', Renderer.resize]
                  · simp [Sketch.rendererApplyDefaults, Sketch.rendererResize,
                      Sketch.updateRenderer]
      · simp only [createCanvas, hR, ccMakeElem, hdg, if_neg hdg, ccFinish] at hok
        rw [if_neg (by simpa using hdg)] at hok
        simp only [Except.ok.injEq, Prod.mk.injEq] at hok
        obtain ⟨rfl, rfl⟩ := hok
        refine ⟨rfl, ?_, ?_⟩
        · simp [Sketch.rendererApplyDefaults, Sketch.rendererResize,
            Sketch.updateRenderer, updateHeap, Sketch.addRenderer,
            Sketch.getRenderer, newRenderer, Renderer.resize, freshCtx]
        · simp [Sketch.rendererApplyDefaults, Sketch.rendererResize,
            Sketch.updateRenderer, Sketch.addRenderer]

/-- The state after `createCanvas(64, 48)` on a fresh sketch. -/
def afterCC6448 : Sketch :=
  match createCanvas 64 48 none freshSketch with
  | Except.ok q => q.2
  | Except.error _ => freshSketch

/-- Witness for C7: `createCanvas(64, 48)` on a fresh sketch. -/
theorem createCanvas_resize_defaults_dims_witness :
    createCanvas 64 48 none freshSketch = Except.ok (0, afterCC6448) ∧
    (afterCC6448.rendererRef = some 0 ∧
     (afterCC6448.getRenderer 0).map (fun r => (r.width, r.height)) = some (64, 48) ∧
     afterCC6448.trace = freshSketch.trace ++
       [Event.resizeEv 0 64 48, Event.applyDefaultsEv 0]) :=
  ⟨rfl, createCanvas_resize_defaults_dims 64 48 none freshSketch afterCC6448 0
    (fun rid0 h => by simp [freshSketch] at h) rfl⟩

/-! ## C4: backend switch detaches before attaching, registry size unchanged -/

theorem any_filter_false {α : Type} (l : List α) (p q : α → Bool) (h : l.any p = false) :
    (l.filter q).any p = false := by
  rw [List.any_eq_false] at h ⊢
  intro x hx
  exact h x (List.mem_of_mem_filter hx)

theorem length_filter_ne_count_one (l : List Nat) (a : Nat) (h : l.count a = 1) :
    (l.filter (fun e => !(e == a))).length = l.length - 1 := by
  have h1 := List.length_eq_countP_add_countP (fun e => e == a) l
  have h2 : l.countP (fun e => e == a) = 1 := by
    rw [← h]
    exact (List.count_eq_countP a l).symm
  have h3 : (l.filter (fun e => !(e == a))).length = l.countP (fun e => !(e == a)) :=
    (List.countP_eq_length_filter _ l).symm
  have h4 : l.countP (fun e => decide (¬(e == a) = true)) = l.countP (fun e => !(e == a)) := by
    apply List.countP_congr
    intro x _
    cases hx : (x == a) <;> simp [hx]
  omega

/-- C4: when a Rasterized2D default renderer exists and `createCanvas`
requests the Accelerated3D backend, the old default surface is detached and
its renderer removed from the registry in the first phase — before the
replacement surface is attached (in the intermediate state neither surface is
attached) — and then exactly one renderer is registered, so the registry size
after the call equals the size before it, the old surface stays detached, and
the replacement is attached. -/
theorem createCanvas_gl_teardown_ordering (w h : Int) (s : Sketch) (rid0 : Nat)
    (r0 : Renderer)
    (hr : s.rendererRef = some rid0)
    (hg : s.getRenderer rid0 = some r0)
    (hb : r0.backend = Backend.rasterized2D)
    (he : s.dom.getElementById s.defaultId = some r0.eid)
    (hcount : s.elements.count rid0 = 1)
    (helt : r0.eid < s.dom.nextEid)
    (hlt : rid0 < s.nextRid)
    (hfresh : s.dom.isAttached s.dom.nextEid = false) :
    ∃ c sMid, ccMakeElem Backend.accelerated3D s = Except.ok (c, sMid) ∧
      sMid.dom.isAttached r0.eid = false ∧
      sMid.dom.isAttached c.1 = false ∧
      rid0 ∉ sMid.elements ∧
      (createCanvas w h (some Backend.accelerated3D) s).map
          (fun q => (q.1, q.2.elements.length, decide (rid0 ∈ q.2.elements),
                     q.2.dom.isAttached r0.eid, q.2.dom.isAttached c.1))
        = Except.ok (s.nextRid, s.elements.length, false, false, true) := by
  have hmk : ccMakeElem Backend.accelerated3D s
      = Except.ok ((s.dom.nextEid, s.defaultId),
          { s with
              dom := { attached := s.dom.attached.filter (fun p => !(p.1 == r0.eid)),
                       nextEid := s.dom.nextEid + 1 },
              elements := s.elements.filter (fun e => !(e == rid0)) }) := by
    simp [ccMakeElem, he, hr, Dom.createElement, Dom.removeChild]
  have hgone : (s.dom.attached.filter (fun p => !(p.1 == r0.eid))).any
      (fun p => p.1 == r0.eid) = false := by
    rw [List.any_eq_false]
    intro x hx
    have := (List.mem_filter.mp hx).2
    simpa using this
  have hnew : (s.dom.attached.filter (fun p => !(p.1 == r0.eid))).any
      (fun p => p.1 == s.dom.nextEid) = false :=
    any_filter_false _ _ _ hfresh
  have hlen : (s.elements.filter (fun e => !(e == rid0))).length
      = s.elements.length - 1 := length_filter_ne_count_one _ _ hcount
  have hpos : 1 ≤ s.elements.length := by
    have := List.count_le_length rid0 s.elements
    omega
  refine ⟨_, _, hmk, hgone, hnew, ?_, ?_⟩
  · simp [List.mem_filter]
  · simp only [createCanvas, Option.getD, hmk]
    simp [ccFinish, Sketch.addRenderer, Sketch.rendererResize,
      Sketch.rendererApplyDefaults, Sketch.updateRenderer, updateHeap,
      Dom.appendChild, Dom.isAttached, Except.map, newRenderer, Renderer.resize,
      freshCtx, List.mem_filter, List.mem_append, Nat.ne_of_lt hlt]
    exact ⟨by omega, by omega⟩

/-- Witness for C4: switching to Accelerated3D on the state after
`createCanvas(100,100)`. -/
theorem createCanvas_gl_teardown_ordering_witness :
    afterP2D.rendererRef = some 0 ∧
    afterP2D.getRenderer 0 = some afterP2DRenderer ∧
    afterP2DRenderer.backend = Backend.rasterized2D ∧
    afterP2D.dom.getElementById afterP2D.defaultId = some afterP2DRenderer.eid ∧
    afterP2D.elements.count 0 = 1 ∧
    afterP2DRenderer.eid < afterP2D.dom.nextEid ∧
    0 < afterP2D.nextRid ∧
    afterP2D.dom.isAttached afterP2D.dom.nextEid = false ∧
    (∃ c sMid, ccMakeElem Backend.accelerated3D afterP2D = Except.ok (c, sMid) ∧
      sMid.dom.isAttached afterP2DRenderer.eid = false ∧
      sMid.dom.isAttached c.1 = false ∧
      0 ∉ sMid.elements ∧
      (createCanvas 20 30 (some Backend.accelerated3D) afterP2D).map
          (fun q => (q.1, q.2.elements.length, decide (0 ∈ q.2.elements),
                     q.2.dom.isAttached afterP2DRenderer.eid, q.2.dom.isAttached c.1))
        = Except.ok (afterP2D.nextRid, afterP2D.elements.length, false, false, true)) :=
  ⟨rfl, rfl, rfl, rfl, rfl, Nat.zero_lt_one, Nat.zero_lt_one, rfl,
    createCanvas_gl_teardown_ordering 20 30 afterP2D 0 afterP2DRenderer
      rfl rfl rfl rfl rfl Nat.zero_lt_one Nat.zero_lt_one rfl⟩

/-! ## Decimal representation: `Nat.repr` is injective

Needed to show the `'defaultCanvas' + i` id scan terminates at the first
unused slot: distinct indices yield distinct id strings. -/

/-- Decimal digit characters of `n`, most significant first. -/
def decChars (n : Nat) : List Char :=
  if h : n < 10 then [Nat.digitChar n]
  else decChars (n / 10) ++ [Nat.digitChar (n % 10)]
decreasing_by exact Nat.div_lt_self (by omega) (by omega)

theorem decChars_lt10 (n : Nat) (h : n < 10) : decChars n = [Nat.digitChar n] := by
  rw [decChars]
  simp [h]

theorem decChars_ge10 (n : Nat) (h : ¬ n < 10) :
    decChars n = decChars (n / 10) ++ [Nat.digitChar (n % 10)] := by
  rw [decChars]
  simp [h]

theorem decChars_ne_nil (n : Nat) : decChars n ≠ [] := by
  by_cases h : n < 10
  · simp [decChars_lt10 n h]
  · simp [decChars_ge10 n h]

theorem digitChar_inj_lt10 : ∀ m n : Fin 10,
    Nat.digitChar m.val = Nat.digitChar n.val → m = n := by decide

theorem decChars_inj : ∀ m n : Nat, decChars m = decChars n → m = n := by
  intro m
  induction m using Nat.strong_induction_on with
  | _ m ih =>
    intro n hkey
    by_cases hm : m < 10 <;> by_cases hn : n < 10
    · rw [decChars_lt10 m hm, decChars_lt10 n hn] at hkey
      have h1 : Nat.digitChar m = Nat.digitChar n := by simpa using hkey
      have h2 := digitChar_inj_lt10 ⟨m, hm⟩ ⟨n, hn⟩ h1
      simpa [Fin.ext_iff] using h2
    · rw [decChars_lt10 m hm, decChars_ge10 n hn] at hkey
      have hlen := congrArg List.length hkey
      simp at hlen
      exact absurd hlen (decChars_ne_nil (n / 10))
    · rw [decChars_ge10 m hm, decChars_lt10 n hn] at hkey
      have hlen := congrArg List.length hkey
      simp at hlen
      exact absurd hlen (decChars_ne_nil (m / 10))
    · rw [decChars_ge10 m hm, decChars_ge10 n hn] at hkey
      obtain ⟨h1, h2⟩ := List.append_inj' hkey (by simp)
      have hdiv : m / 10 = n / 10 :=
        ih (m / 10) (Nat.div_lt_self (by omega) (by omega)) (n / 10) h1
      have hchar : Nat.digitChar (m % 10) = Nat.digitChar (n % 10) := by
        simpa using h2
      have hmod := digitChar_inj_lt10
        ⟨m % 10, Nat.mod_lt _ (by omega)⟩ ⟨n % 10, Nat.mod_lt _ (by omega)⟩ hchar
      simp only [Fin.mk.injEq] at hmod
      omega

theorem toDigitsCore_succ (b fuel n : Nat) (ds : List Char) :
    Nat.toDigitsCore b (fuel + 1) n ds =
      if n / b = 0 then Nat.digitChar (n % b) :: ds
      else Nat.toDigitsCore b fuel (n / b) (Nat.digitChar (n % b) :: ds) := by
  rfl

theorem toDigitsCore_eq_decChars :
    ∀ (fuel n : Nat) (ds : List Char), n < 10 ^ (fuel + 1) →
      Nat.toDigitsCore 10 (fuel + 1) n ds = decChars n ++ ds := by
  intro fuel
  induction fuel with
  | zero =>
      intro n ds h
      have hn : n < 10 := by simpa using h
      have h0 : n / 10 = 0 := Nat.div_eq_of_lt hn
      have hmod : n % 10 = n := Nat.mod_eq_of_lt hn
      rw [toDigitsCore_succ, if_pos h0, hmod, decChars_lt10 n hn]
      rfl
  | succ fuel ih =>
      intro n ds h
      by_cases h0 : n / 10 = 0
      · have hn : n < 10 := (Nat.div_eq_zero_iff (by omega)).mp h0
        have hmod : n % 10 = n := Nat.mod_eq_of_lt hn
        rw [toDigitsCore_succ, if_pos h0, hmod, decChars_lt10 n hn]
        rfl
      · have hn : ¬ n < 10 := fun hc => h0 (Nat.div_eq_of_lt hc)
        have hdivlt : n / 10 < 10 ^ (fuel + 1) := by
          rw [Nat.div_lt_iff_lt_mul (by omega)]
          calc n < 10 ^ (fuel + 1 + 1) := h
          _ = 10 ^ (fuel + 1) * 10 := by ring
        have hrec := ih (n / 10) (Nat.digitChar (n % 10) :: ds) hdivlt
        rw [toDigitsCore_succ, if_neg h0, hrec, decChars_ge10 n hn]
        simp

theorem natRepr_eq_decChars (n : Nat) : Nat.repr n = (decChars n).asString := by
  have h : n < 10 ^ (n + 1) :=
    lt_of_lt_of_le (Nat.lt_pow_self (by omega) n)
      (Nat.pow_le_pow_right (by omega) (Nat.le_succ n))
  show (Nat.toDigits 10 n).asString = _
  rw [Nat.toDigits, toDigitsCore_eq_decChars n n [] h]
  simp

theorem natRepr_inj {m n : Nat} (h : Nat.repr m = Nat.repr n) : m = n := by
  rw [natRepr_eq_decChars, natRepr_eq_decChars] at h
  apply decChars_inj
  have hd := congrArg String.data h
  simpa [List.asString] using hd

theorem defaultSlot_inj {m n : Nat} (h : defaultSlot m = defaultSlot n) : m = n := by
  apply natRepr_inj
  apply String.ext
  have hd := congrArg String.data h
  simp only [defaultSlot, String.data_append] at hd
  exact List.append_cancel_left hd

/-! ## First-free-slot scan -/

theorem exists_free_slot (d : Dom) :
    ∃ j, j < d.attached.length + 1 ∧ d.hasId (defaultSlot j) = false := by
  by_contra hcon
  push_neg at hcon
  have hall : ∀ j, j < d.attached.length + 1 → d.hasId (defaultSlot j) = true := by
    intro j hj
    have := hcon j hj
    simpa using this
  have hsub : ((List.range (d.attached.length + 1)).map defaultSlot)
      ⊆ d.attached.map (fun p => p.2) := by
    intro x hx
    obtain ⟨j, hj, rfl⟩ := List.mem_map.mp hx
    have hj' : j < d.attached.length + 1 := List.mem_range.mp hj
    have hid := hall j hj'
    simp only [Dom.hasId, List.any_eq_true] at hid
    obtain ⟨p, hp, hpe⟩ := hid
    have hpe' : p.2 = defaultSlot j := by simpa using hpe
    exact List.mem_map.mpr ⟨p, hp, hpe'⟩
  have hnd : ((List.range (d.attached.length + 1)).map defaultSlot).Nodup :=
    List.Nodup.map (fun a b hab => defaultSlot_inj hab) (List.nodup_range _)
  have hle := (List.subperm_of_subset hnd hsub).length_le
  simp at hle

theorem scanFree_spec (d : Dom) :
    ∀ (fuel i : Nat), (∃ j, j < fuel ∧ d.hasId (defaultSlot (i + j)) = false) →
      d.hasId (defaultSlot (scanFree d fuel i)) = false ∧
      i ≤ scanFree d fuel i ∧
      ∀ k, i ≤ k → k < scanFree d fuel i → d.hasId (defaultSlot k) = true := by
  intro fuel
  induction fuel with
  | zero =>
      intro i h
      obtain ⟨j, hj, _⟩ := h
      omega
  | succ fuel ih =>
      intro i h
      by_cases hi : d.hasId (defaultSlot i) = true
      · have h' : ∃ j, j < fuel ∧ d.hasId (defaultSlot (i + 1 + j)) = false := by
          obtain ⟨j, hj, hfree⟩ := h
          cases j with
          | zero =>
              rw [Nat.add_zero, hi] at hfree
              cases hfree
          | succ j =>
              refine ⟨j, by omega, ?_⟩
              rw [show i + 1 + j = i + (j + 1) by omega]
              exact hfree
        obtain ⟨h1, h2, h3⟩ := ih (i + 1) h'
        have hstep : scanFree d (fuel + 1) i = scanFree d fuel (i + 1) := by
          simp [scanFree, hi]
        refine ⟨?_, ?_, ?_⟩
        · rw [hstep]; exact h1
        · rw [hstep]; omega
        · intro k hk1 hk2
          rw [hstep] at hk2
          rcases Nat.eq_or_lt_of_le hk1 with hk | hk
          · rw [← hk]; exact hi
          · exact h3 k (by omega) hk2
      · have hi' : d.hasId (defaultSlot i) = false := by simpa using hi
        have hstep : scanFree d (fuel + 1) i = i := by simp [scanFree, hi']
        refine ⟨?_, ?_, ?_⟩
        · rw [hstep]; exact hi'
        · rw [hstep]
        · intro k hk1 hk2
          rw [hstep] at hk2
          omega

/-- The id scan lands on the first unused `defaultCanvasN` slot. -/
theorem firstFreeIdx_spec (d : Dom) :
    d.hasId (defaultSlot (firstFreeIdx d)) = false ∧
    ∀ k, k < firstFreeIdx d → d.hasId (defaultSlot k) = true := by
  obtain ⟨j, hj, hfree⟩ := exists_free_slot d
  obtain ⟨h1, _, h3⟩ := scanFree_spec d (d.attached.length + 1) 0
    ⟨j, hj, by simpa using hfree⟩
  exact ⟨h1, fun k hk => h3 k (Nat.zero_le k) hk⟩

/-! ## C8: Rasterized2D surface reuse and first-free id allocation -/

/-- `createCanvas` with the default backend when the default canvas already
exists: the call reduces to a resize — it reuses `this.canvas`, allocates no
element, constructs no renderer, and leaves registry, heap size, canvas
reference and default id unchanged. -/
theorem createCanvas_p2d_reuse_step (w h : Int) (s : Sketch) (c : Nat × String)
    (rid : Nat)
    (hdg : s.defaultGraphicsCreated = true)
    (hcv : s.canvasRef = some c)
    (hrr : s.rendererRef = some rid) :
    ∃ s2, createCanvas w h none s = Except.ok (rid, s2) ∧
      s2.canvasRef = s.canvasRef ∧
      s2.defaultId = s.defaultId ∧
      s2.renderers.length = s.renderers.length ∧
      s2.elements = s.elements ∧
      s2.dom.nextEid = s.dom.nextEid ∧
      s2.defaultGraphicsCreated = true ∧
      s2.rendererRef = some rid := by
  simp [createCanvas, ccMakeElem, hdg, hcv, ccFinish, hrr, Sketch.rendererResize,
    Sketch.rendererApplyDefaults, Sketch.updateRenderer, updateHeap,
    Dom.appendChild]

/-- First `createCanvas` with the default backend: allocates the surface with
the first free `defaultCanvasN` id and records it as `this.canvas`. -/
theorem createCanvas_p2d_first (w h : Int) (s0 : Sketch)
    (h0 : s0.defaultGraphicsCreated = false) :
    ∃ s1, createCanvas w h none s0 = Except.ok (s0.nextRid, s1) ∧
      s1.defaultId = defaultSlot (firstFreeIdx s0.dom) ∧
      s1.canvasRef = some (s0.dom.nextEid, defaultSlot (firstFreeIdx s0.dom)) ∧
      s1.defaultGraphicsCreated = true ∧
      s1.rendererRef = some s0.nextRid := by
  simp [createCanvas, ccMakeElem, h0, ccFinish, Dom.createElement, Dom.appendChild,
    Sketch.addRenderer, Sketch.rendererResize, Sketch.rendererApplyDefaults,
    Sketch.updateRenderer, updateHeap, newRenderer, freshCtx, Renderer.resize]

/-- C8: `createCanvas` with the Rasterized2D backend twice.  The first call
allocates a fresh surface whose id is found by scanning upward from index 0
for the first unused `defaultCanvasN` slot; the second call constructs no new
renderer and allocates no new surface — it reuses the existing surface (same
canvas reference, hence same surface id both times) and reduces to a resize,
leaving the registry, the heap size, the element counter and the default id
unchanged. -/
theorem createCanvas_p2d_allocates_once (w h w2 h2 : Int) (s0 : Sketch)
    (h0 : s0.defaultGraphicsCreated = false) :
    s0.dom.hasId (defaultSlot (firstFreeIdx s0.dom)) = false ∧
    (∀ k, k < firstFreeIdx s0.dom → s0.dom.hasId (defaultSlot k) = true) ∧
    ∃ s1 s2,
      createCanvas w h none s0 = Except.ok (s0.nextRid, s1) ∧
      s1.defaultId = defaultSlot (firstFreeIdx s0.dom) ∧
      s1.canvasRef = some (s0.dom.nextEid, s1.defaultId) ∧
      createCanvas w2 h2 none s1 = Except.ok (s0.nextRid, s2) ∧
      s2.canvasRef = s1.canvasRef ∧
      s2.defaultId = s1.defaultId ∧
      s2.renderers.length = s1.renderers.length ∧
      s2.elements = s1.elements ∧
      s2.dom.nextEid = s1.dom.nextEid := by
  obtain ⟨hfree, hmin⟩ := firstFreeIdx_spec s0.dom
  obtain ⟨s1, hc1, hdid, hcv, hdg, hrr⟩ := createCanvas_p2d_first w h s0 h0
  obtain ⟨s2, hc2, k1, k2, k3, k4, k5, _, _⟩ :=
    createCanvas_p2d_reuse_step w2 h2 s1 _ s0.nextRid hdg hcv hrr
  exact ⟨hfree, hmin, s1, s2, hc1, hdid, by rw [hdid]; exact hcv, hc2,
    k1, k2, k3, k4, k5⟩

/-- Witness for C8 on a fresh sketch. -/
theorem createCanvas_p2d_allocates_once_witness :
    freshSketch.defaultGraphicsCreated = false ∧
    (freshSketch.dom.hasId (defaultSlot (firstFreeIdx freshSketch.dom)) = false ∧
     (∀ k, k < firstFreeIdx freshSketch.dom →
        freshSketch.dom.hasId (defaultSlot k) = true) ∧
     ∃ s1 s2,
       createCanvas 100 100 none freshSketch = Except.ok (freshSketch.nextRid, s1) ∧
       s1.defaultId = defaultSlot (firstFreeIdx freshSketch.dom) ∧
       s1.canvasRef = some (freshSketch.dom.nextEid, s1.defaultId) ∧
       createCanvas 30 40 none s1 = Except.ok (freshSketch.nextRid, s2) ∧
       s2.canvasRef = s1.canvasRef ∧
       s2.defaultId = s1.defaultId ∧
       s2.renderers.length = s1.renderers.length ∧
       s2.elements = s1.elements ∧
       s2.dom.nextEid = s1.dom.nextEid) :=
  ⟨rfl, createCanvas_p2d_allocates_once 100 100 30 40 freshSketch rfl⟩

/-! ## C1: resizeCanvas snapshot/restore -/

theorem setCtxProp_keys (c : List CtxProp) (k : String) (v : JsVal) :
    (setCtxProp c k v).map (fun p => p.key) = c.map (fun p => p.key) := by
  unfold setCtxProp
  rw [List.map_map]
  apply List.map_congr_left
  intro p _
  simp only [Function.comp_apply]
  split <;> rfl

theorem find?_setCtxProp (c : List CtxProp) (k k0 : String) (v : JsVal) :
    (setCtxProp c k v).find? (fun p => p.key == k0)
      = (c.find? (fun p => p.key == k0)).map
          (fun p => if p.key == k && !p.readOnly then { p with val := v } else p) := by
  unfold setCtxProp
  rw [List.find?_map]
  have hpred : ((fun p : CtxProp => p.key == k0) ∘
      (fun p => if p.key == k && !p.readOnly then { p with val := v } else p))
      = (fun p : CtxProp => p.key == k0) := by
    funext p
    simp only [Function.comp_apply]
    split <;> rfl
  rw [hpred]

theorem lookupVal_setCtxProp_ne (c : List CtxProp) (k k0 : String) (v : JsVal)
    (h : k0 ≠ k) :
    lookupVal (setCtxProp c k v) k0 = lookupVal c k0 := by
  unfold lookupVal
  rw [find?_setCtxProp]
  cases hf : c.find? (fun p => p.key == k0) with
  | none => rfl
  | some p =>
      have hpk : p.key = k0 := by simpa using List.find?_some hf
      have hfp : (if p.key == k && !p.readOnly then { p with val := v } else p) = p := by
        have hcond : (p.key == k) = false := by
          rw [hpk]
          exact beq_eq_false_iff_ne.mpr h
        rw [hcond]
        rfl
      show some ((if p.key == k && !p.readOnly then { p with val := v } else p)).val
        = some p.val
      rw [hfp]

theorem lookupVal_setCtxProp_self (k : String) (v : JsVal) :
    ∀ c : List CtxProp, (c.map (fun p => p.key)).Nodup →
      ∀ p0 : CtxProp, p0 ∈ c → p0.key = k → p0.readOnly = false →
      lookupVal (setCtxProp c k v) k = some v := by
  intro c
  induction c with
  | nil =>
      intro _ p0 hp0
      cases hp0
  | cons a t ih =>
      intro hnd p0 hp0 hk hro
      rcases List.mem_cons.mp hp0 with rfl | hp0t
      · have hcond : (p0.key == k && !p0.readOnly) = true := by simp [hk, hro]
        unfold setCtxProp lookupVal
        simp only [List.map_cons]
        rw [hcond, if_pos rfl, List.find?_cons_of_pos _ (by simpa using hk)]
        rfl
      · have hank : a.key ≠ k := by
          intro hcon
          have hmem : a.key ∈ List.map (fun p => p.key) t := by
            rw [hcon, ← hk]
            exact List.mem_map_of_mem _ hp0t
          exact (List.nodup_cons.mp hnd).1 hmem
        have hcond : (a.key == k && !a.readOnly) = false := by simp [hank]
        have htail := ih (List.nodup_cons.mp hnd).2 p0 hp0t hk hro
        simp only [setCtxProp, List.map_cons, hcond] at htail ⊢
        simp only [lookupVal] at htail ⊢
        rw [if_neg (by simp : ¬(false = true))]
        rw [List.find?_cons_of_neg _ (by simpa using hank)]
        exact htail

theorem restoreProps_lookup_notin (k : String) :
    ∀ (props : List (String × JsVal)) (c : List CtxProp),
      (∀ q ∈ props, q.1 ≠ k) →
      lookupVal (restoreProps c props) k = lookupVal c k := by
  intro props
  induction props with
  | nil =>
      intro c _
      rfl
  | cons q rest ih =>
      intro c hq
      obtain ⟨k1, v1⟩ := q
      rw [restoreProps]
      rw [ih _ (fun q2 hq2 => hq q2 (List.mem_cons_of_mem _ hq2))]
      exact lookupVal_setCtxProp_ne c k1 k v1
        (fun hcon => hq (k1, v1) (List.mem_cons_self _ _) hcon.symm)

theorem restoreProps_lookup (k : String) (v : JsVal) :
    ∀ (props : List (String × JsVal)) (c : List CtxProp),
      (k, v) ∈ props →
      (props.map (fun q => q.1)).Nodup →
      (c.map (fun p => p.key)).Nodup →
      (∃ p0 ∈ c, p0.key = k ∧ p0.readOnly = false) →
      lookupVal (restoreProps c props) k = some v := by
  intro props
  induction props with
  | nil =>
      intro c hmem
      cases hmem
  | cons q rest ih =>
      intro c hmem hpnd hcnd hex
      obtain ⟨k1, v1⟩ := q
      rw [restoreProps]
      rcases List.mem_cons.mp hmem with heq | hmemr
      · injection heq with h1 h2
        subst h1
        subst h2
        have hknotin : ∀ q2 ∈ rest, q2.1 ≠ k := by
          intro q2 hq2 hcon
          have hmem : k ∈ List.map (fun q => q.1) rest := by
            rw [← hcon]
            exact List.mem_map_of_mem _ hq2
          exact (List.nodup_cons.mp hpnd).1 hmem
        rw [restoreProps_lookup_notin k rest _ hknotin]
        obtain ⟨p0, hp0, hk0, hro0⟩ := hex
        exact lookupVal_setCtxProp_self k v c hcnd p0 hp0 hk0 hro0
      · have hex' : ∃ p0 ∈ setCtxProp c k1 v1, p0.key = k ∧ p0.readOnly = false := by
          obtain ⟨p0, hp0, hk0, hro0⟩ := hex
          refine ⟨if p0.key == k1 && !p0.readOnly then { p0 with val := v1 } else p0,
            List.mem_map_of_mem
              (fun p => if p.key == k1 && !p.readOnly then { p with val := v1 } else p)
              hp0, ?_, ?_⟩ <;> split <;> simp [hk0, hro0]
        have hcnd' : ((setCtxProp c k1 v1).map (fun p => p.key)).Nodup := by
          rw [setCtxProp_keys]
          exact hcnd
        exact ih (setCtxProp c k1 v1) hmemr (List.nodup_cons.mp hpnd).2 hcnd' hex'

/-- C1: `resizeCanvas(w, h, skipRedraw)` with a live renderer leaves the
renderer with dimensions `(w, h)`, and every scalar (non-object, non-callable)
drawing-context property that is not backend-read-only holds its pre-call
value again afterwards; read-only properties are skipped by the swallowed
`try`/`catch` and no error reaches the caller (`resizeCanvas` is total — it
always returns a state, never a thrown error). -/
theorem resizeCanvas_restores_state (w h : Int) (nr : Bool) (s : Sketch)
    (rid : Nat) (r : Renderer) (p : CtxProp)
    (hr : s.rendererRef = some rid) (hg : s.getRenderer rid = some r)
    (hnd : (r.ctx.map (fun q => q.key)).Nodup)
    (hp : p ∈ r.ctx) (hs : p.val.isScalar = true) (hro : p.readOnly = false) :
    ∃ r2, (resizeCanvas w h nr s).getRenderer rid = some r2 ∧
      r2.width = w ∧ r2.height = h ∧
      lookupVal r2.ctx p.key = some p.val := by
  have hg' : (s.renderers.find? (fun q => q.1 == rid)).map (fun q => q.2) = some r := hg
  have hfinal : (resizeCanvas w h nr s).getRenderer rid
      = some { r.resize w h with
               ctx := restoreProps (r.resize w h).ctx (snapshotScalars r.ctx) } := by
    cases nr <;>
      simp [resizeCanvas, hr, hg, Sketch.rendererResize, Sketch.updateRenderer,
        find?_updateHeap_self, hg', Sketch.getRenderer]
  refine ⟨_, hfinal, rfl, rfl, ?_⟩
  show lookupVal (restoreProps (r.resize w h).ctx (snapshotScalars r.ctx)) p.key
      = some p.val
  apply restoreProps_lookup p.key p.val
  · exact List.mem_map_of_mem _ (List.mem_filter.mpr ⟨hp, hs⟩)
  · have hkeys : (snapshotScalars r.ctx).map (fun q => q.1)
        = (r.ctx.filter (fun q => q.val.isScalar)).map (fun q => q.key) := by
      unfold snapshotScalars
      rw [List.map_map]
      rfl
    rw [hkeys]
    exact List.Nodup.sublist (List.Sublist.map _ (List.filter_sublist _)) hnd
  · have hkeys2 : (r.resize w h).ctx.map (fun q => q.key)
        = r.ctx.map (fun q => q.key) := by
      simp only [Renderer.resize]
      rw [List.map_map]
      rfl
    rw [hkeys2]
    exact hnd
  · refine ⟨{ p with val := resetVal p.key }, ?_, rfl, hro⟩
    simp only [Renderer.resize]
    exact List.mem_map_of_mem _ hp

/-- A concrete drawing context for the C1 witness: a restorable scalar, a
backend-protected object, and a backend-protected scalar. -/
def ctxSample : List CtxProp :=
  [ { key := "strokeStyle", val := JsVal.str "#ff0000", readOnly := false },
    { key := "canvas", val := JsVal.obj 7, readOnly := true },
    { key := "lineDashOffset", val := JsVal.num 3, readOnly := true },
    { key := "globalAlpha", val := JsVal.num 1, readOnly := false } ]

/-- A sketch whose default renderer carries `ctxSample` as its context. -/
def sketchWithCtx : Sketch :=
  { freshSketch with
      renderers := [(0, { afterP2DRenderer with ctx := ctxSample })],
      nextRid := 1, rendererRef := some 0, elements := [0],
      defaultGraphicsCreated := true,
      canvasRef := some (0, "defaultCanvas0"),
      dom := { attached := [(0, "defaultCanvas0")], nextEid := 1 } }

/-- Witness for C1: resizing `sketchWithCtx` restores the `strokeStyle`
token. -/
theorem resizeCanvas_restores_state_witness :
    sketchWithCtx.rendererRef = some 0 ∧
    sketchWithCtx.getRenderer 0 = some { afterP2DRenderer with ctx := ctxSample } ∧
    (({ afterP2DRenderer with ctx := ctxSample } : Renderer).ctx.map
      (fun q => q.key)).Nodup ∧
    (∃ r2, (resizeCanvas 25 35 false sketchWithCtx).getRenderer 0 = some r2 ∧
      r2.width = 25 ∧ r2.height = 35 ∧
      lookupVal r2.ctx "strokeStyle" = some (JsVal.str "#ff0000")) :=
  ⟨rfl, rfl, by decide,
    resizeCanvas_restores_state 25 35 false sketchWithCtx 0
      { afterP2DRenderer with ctx := ctxSample }
      { key := "strokeStyle", val := JsVal.str "#ff0000", readOnly := false }
      rfl rfl (by decide) (by decide) rfl rfl⟩

end P5
